import Mathlib

/-!
# Verification of the Alpha voice assistant conversation loop and action dispatcher

Shallow embedding of `voice_assistant/action_handlers.py` and the inner
conversation loop of `voice_assistant/main.py`.

Modelling conventions:
* Python values appearing as intent parameters are modelled by `PyVal`
  (`None`, strings, integers); dictionaries by association lists.
* Side effects (speaking, opening URLs, listening) are recorded as an
  explicit event trace; the filesystem and the saved-responses file are
  explicit state inside `World`.
* The platform executors (`subprocess` calls, `pyautogui`, volume APIs),
  which the spec declares external collaborators, are abstracted as
  boolean-valued oracle fields of `World`.
* Python exceptions that can escape a handler are modelled with `Except`.
-/

/-- Python values that occur as NLU intent parameter values:
`None`, strings, and integers. -/
inductive PyVal where
  | none
  | str (s : String)
  | int (n : Int)
deriving DecidableEq, Repr

/-- A Python dict with string keys, as an association list. -/
abbrev Params := List (String × PyVal)

/-- Python `d.get(k)`: the stored value, or `None` if the key is absent. -/
def pyGet (p : Params) (k : String) : PyVal :=
  match p.lookup k with
  | Option.some v => v
  | Option.none => PyVal.none

/-- Python `d.get(k, default)`. -/
def pyGetD (p : Params) (k : String) (d : PyVal) : PyVal :=
  match p.lookup k with
  | Option.some v => v
  | Option.none => d

/-- Python truthiness of a `PyVal`. -/
def PyVal.truthy : PyVal → Bool
  | PyVal.none => false
  | PyVal.str s => s ≠ ""
  | PyVal.int n => n ≠ 0

/-- Python `str(v)`, as used when a value is interpolated into an f-string. -/
def PyVal.render : PyVal → String
  | PyVal.none => "None"
  | PyVal.str s => s
  | PyVal.int n => toString n

/-- Python `a or b` restricted to the values it is applied to here. -/
def pyOr (a b : PyVal) : PyVal := if a.truthy then a else b

/-- Python `needle in hay` on strings: substring containment. -/
def pyIn (needle hay : String) : Bool :=
  go needle.toList hay.toList
where
  go (n : List Char) : List Char → Bool
    | [] => n.isEmpty
    | c :: rest => List.isPrefixOf n (c :: rest) || go n rest

/-- Python `s.lstrip(chars)`: drop leading characters belonging to the set. -/
def pyLstrip (s : String) (cs : List Char) : String :=
  String.mk (s.toList.dropWhile (fun c => cs.contains c))

/-- Python `s.lower()` (ASCII range, as the commands at hand use). -/
def pyLower (s : String) : String :=
  String.mk (s.toList.map Char.toLower)

/-- Python `s.strip()`: remove leading and trailing whitespace. -/
def pyStrip (s : String) : String :=
  String.mk
    (((s.toList.dropWhile Char.isWhitespace).reverse.dropWhile Char.isWhitespace).reverse)

/-- Python `s.startswith(pre)`. -/
def pyStartsWith (s pre : String) : Bool :=
  List.isPrefixOf pre.toList s.toList

/-- Python `s.capitalize()`: first character upper-cased, the rest lower-cased. -/
def pyCapitalize (s : String) : String :=
  match s.toList with
  | [] => ""
  | c :: rest => String.mk (c.toUpper :: (rest.map Char.toLower))

/-- Uppercase hexadecimal digit, for percent-encoding. -/
def hexDigitUpper (n : Nat) : Char :=
  if n < 10 then Char.ofNat (48 + n) else Char.ofNat (55 + n)

/-- `urllib.parse.quote_plus` on one UTF-8 byte: kept if in the always-safe
set (letters, digits, `_.-~`), space becomes `+`, everything else `%XX`. -/
def quotePlusByte (b : Nat) : String :=
  if (65 ≤ b && b ≤ 90) || (97 ≤ b && b ≤ 122) || (48 ≤ b && b ≤ 57)
      || b = 95 || b = 46 || b = 45 || b = 126 then
    String.singleton (Char.ofNat b)
  else if b = 32 then "+"
  else String.mk ['%', hexDigitUpper (b / 16), hexDigitUpper (b % 16)]

/-- `urllib.parse.quote_plus` over the UTF-8 encoding of the string. -/
def quotePlus (s : String) : String :=
  (s.toUTF8.toList.map (fun b => b.toNat)).foldl
    (fun acc b => acc ++ quotePlusByte b) ""

/-- Last index of `c` in `l`, as Python `str.rfind`: `-1` when absent. -/
def lastIdxOf (c : Char) (l : List Char) : Int :=
  (l.foldl
    (fun (acc : Int × Int) ch => (if ch = c then acc.2 else acc.1, acc.2 + 1))
    (-1, 0)).1

/-- `os.path.splitext` (posixpath variant, `sep = '/'`): split off the suffix
starting at the last dot of the final path component, unless that component
consists only of leading dots up to that dot. -/
def splitext (p : String) : String × String :=
  let l := p.toList
  let sepIndex := lastIdxOf '/' l
  let dotIndex := lastIdxOf '.' l
  if sepIndex < dotIndex then
    let basenameStart := (sepIndex + 1).toNat
    let dotN := dotIndex.toNat
    if (List.range (dotN - basenameStart)).any
        (fun i => l.get? (basenameStart + i) ≠ Option.some '.') then
      (String.mk (l.take dotN), String.mk (l.drop dotN))
    else
      (p, "")
  else
    (p, "")

/-! ## Filesystem model -/

/-- Update an association list at a key (replace, or insert at the end). -/
def updAssoc (l : List (String × String)) (k v : String) :
    List (String × String) :=
  match l with
  | [] => [(k, v)]
  | (k', v') :: t =>
    if k' = k then (k, v) :: t else (k', v') :: updAssoc t k v

/-- Remove a key from an association list. -/
def delAssoc (l : List (String × String)) (k : String) :
    List (String × String) :=
  match l with
  | [] => []
  | (k', v') :: t => if k' = k then t else (k', v') :: delAssoc t k

/-- Filesystem state: regular files (path to content) and directories
(path to raw entry list, dotfiles included). -/
structure FS where
  files : List (String × String)
  dirs : List (String × List String)
deriving Repr, DecidableEq

/-- Content of the regular file at `p`, if it exists. -/
def FS.file? (fs : FS) (p : String) : Option String := fs.files.lookup p

/-- `os.path.isdir`. -/
def FS.isdir (fs : FS) (p : String) : Bool := (fs.dirs.lookup p).isSome

/-- Write (create or truncate) the regular file at `p`. -/
def FS.setFile (fs : FS) (p c : String) : FS :=
  { fs with files := updAssoc fs.files p c }

/-- `os.remove`. -/
def FS.removeFile (fs : FS) (p : String) : FS :=
  { fs with files := delAssoc fs.files p }

/-! ## Worlds, events, handler outcomes -/

/-- Python exceptions that the modelled code can raise. -/
inductive PyErr where
  | attributeError
  | typeError
deriving DecidableEq, Repr

/-- Observable events emitted by a handler or by the conversation loop. -/
inductive Event where
  | speak (s : String)
  | openUrl (s : String)
  | listen
deriving DecidableEq, Repr

/-- The mutable world a handler runs in.  `responses` is the content of
`voice_assistant/responses.txt`; `shortReplies` is the pending result queue
of `listen_for_short_response`; `now` is the formatted current timestamp.
The boolean oracle fields abstract the platform executors (spec section 6),
which are external collaborators. -/
structure World where
  fs : FS
  responses : String
  shortReplies : List (Option String)
  now : String
  openAppOk : String → Bool
  closeAppOk : String → Bool
  sysCtlOk : String → Bool
  volCtlOk : PyVal → PyVal → Bool
  windowOk : Bool

/-- Outcome of one handler invocation: the updated world, the events emitted
(in order), and the Python return value — `Except.error` when an exception
escapes the handler. -/
structure HOut where
  world : World
  events : List Event
  ret : Except PyErr (Option Bool)

/-- `listen_for_short_response()`: pop the next queued result (`None` when
nothing usable was heard, which is also what an exhausted queue yields). -/
def listenShort (w : World) : Option String × World :=
  match w.shortReplies with
  | [] => (Option.none, w)
  | r :: rest => (r, { w with shortReplies := rest })

/-- The handler interface of `ACTION_MAP`: parameters, the original command
text, and the world. -/
abbrev Handler := Params → String → World → HOut

/-! ## Action handlers (`voice_assistant/action_handlers.py`) -/

/-- `config.DEFAULT_WEB_ENGINE`. -/
def DEFAULT_WEB_ENGINE : String := "google"

/-- `config.DEFAULT_VOLUME_STEP`. -/
def DEFAULT_VOLUME_STEP : Nat := 10

/-- The affirmative-word set of `handle_gemini_reply` (source line 253). -/
def affirmWords : List String :=
  ["yes", "yeah", "yup", "sure", "save", "please save", "ok"]

/-- Whether an effectively captured reply counts as affirmative:
Python `if reply:` followed by `any(w in reply.lower() for w in ...)`. -/
def isAffirmative (reply : Option String) : Bool :=
  match reply with
  | Option.some s => s ≠ "" && affirmWords.any (fun wd => pyIn wd (pyLower s))
  | Option.none => false

/-- `handle_gemini_reply` (source lines 216-285).  Speaks the answer, asks
whether to save it, listens (with one retry when nothing usable is heard),
and appends a formatted entry to `responses.txt` only on an affirmative
reply.  The dispatch through `ACTION_MAP` passes no `original_command`. -/
def handle_gemini_reply (params : Params) (original_command : Option String)
    (w : World) : HOut :=
  let answer := pyGet params "answer"
  if !answer.truthy then
    ⟨w, [Event.speak "I received an empty response from the knowledge engine."],
     Except.ok (Option.some false)⟩
  else
    let ev0 := [Event.speak answer.render,
      Event.speak "Would you like me to save this response for later? Please say yes or no."]
    let p1 := listenShort w
    let p2 :=
      if (p1.1.getD "") = "" then
        let p2' := listenShort p1.2
        (p2'.1, p2'.2,
         [Event.listen,
          Event.speak "I didn\x27t catch that. Do you want me to save it? Say yes or no.",
          Event.listen])
      else (p1.1, p1.2, [Event.listen])
    let reply := p2.1
    let w2 := p2.2.1
    let ev1 := p2.2.2
    if !(isAffirmative reply) then
      ⟨w2, ev0 ++ ev1 ++ [Event.speak "Okay, I won\x27t save it."],
       Except.ok (Option.some false)⟩
    else
      match answer with
      | PyVal.str a =>
        let question := pyOr (pyOr
            (match original_command with
             | Option.some s => PyVal.str s
             | Option.none => PyVal.none)
            (pyGet params "question"))
          (PyVal.str "User query")
        let entry := String.intercalate "\n"
          [String.mk (List.replicate 60 '='),
           "Saved: " ++ w2.now,
           "Question: " ++ question.render,
           String.mk (List.replicate 60 '-'),
           pyStrip a, ""] ++ "\n"
        ⟨{ w2 with responses := w2.responses ++ entry },
         ev0 ++ ev1 ++ [Event.speak "Saved the response to my memory."],
         Except.ok (Option.some false)⟩
      | _ =>
        -- `answer.strip()` raises on a non-string; the surrounding `except`
        -- converts this to an apology and nothing is written.
        ⟨w2, ev0 ++ ev1 ++ [Event.speak "Sorry, I couldn\x27t save the response due to an error."],
         Except.ok (Option.some false)⟩

/-- `handle_open_website` (source lines 287-297): prepend `https://` after
`url.lstrip('www.')` when no scheme is present. -/
def handle_open_website : Handler := fun params _ w =>
  let url := pyGet params "url"
  if url.truthy then
    match url with
    | PyVal.str s =>
      let u := if pyStartsWith s "http://" || pyStartsWith s "https://" then s
               else "https://" ++ pyLstrip s ['w', '.']
      ⟨w, [Event.speak ("Opening " ++ u), Event.openUrl u], Except.ok Option.none⟩
    | _ => ⟨w, [], Except.error PyErr.attributeError⟩  -- url.startswith on a non-string
  else
    ⟨w, [Event.speak "I need a website address to open."], Except.ok Option.none⟩

/-- `handle_open_application` (source lines 299-307); the cross-platform
launch helper is abstracted by the `openAppOk` oracle. -/
def handle_open_application : Handler := fun params _ w =>
  let app := pyGet params "app_name"
  if app.truthy then
    let ev := [Event.speak ("Launching " ++ app.render ++ ".")]
    match app with
    | PyVal.str s =>
      if w.openAppOk s then ⟨w, ev, Except.ok Option.none⟩
      else ⟨w, ev ++ [Event.speak ("Sorry, I couldn\x27t find the application: " ++ s ++ ".")],
            Except.ok Option.none⟩
    | _ => ⟨w, ev, Except.error PyErr.attributeError⟩  -- app_name.lower() in the helper
  else
    ⟨w, [Event.speak "I need an application name to open."], Except.ok Option.none⟩

/-- `handle_close_application` (source lines 309-319); the cross-platform
close helper is abstracted by the `closeAppOk` oracle. -/
def handle_close_application : Handler := fun params _ w =>
  let app := pyGet params "app_name"
  if app.truthy then
    let ev := [Event.speak ("Attempting to close " ++ app.render ++ ".")]
    match app with
    | PyVal.str s =>
      if w.closeAppOk s then
        ⟨w, ev ++ [Event.speak (s ++ " closed successfully.")], Except.ok Option.none⟩
      else
        ⟨w, ev ++ [Event.speak ("Sorry, I couldn\x27t close the application or it wasn\x27t running: " ++ s ++ ".")],
         Except.ok Option.none⟩
    | _ => ⟨w, ev, Except.error PyErr.attributeError⟩  -- app_name.lower() in the helper
  else
    ⟨w, [Event.speak "I need an application name to close."], Except.ok Option.none⟩

/-- `handle_youtube_search` (source lines 321-329). -/
def handle_youtube_search : Handler := fun params _ w =>
  let query := pyGet params "query"
  if query.truthy then
    match query with
    | PyVal.str q =>
      let url := "https://www.youtube.com/results?search_query=" ++ quotePlus q
      ⟨w, [Event.speak ("Searching YouTube for: " ++ q), Event.openUrl url],
       Except.ok Option.none⟩
    | _ => ⟨w, [], Except.error PyErr.typeError⟩  -- quote_plus on a non-string
  else
    ⟨w, [Event.speak "I need a search query for YouTube."], Except.ok Option.none⟩

/-- `handle_youtube_play` (source lines 331-341). -/
def handle_youtube_play : Handler := fun params _ w =>
  let song := pyGet params "song_name"
  let artist := pyGet params "artist"
  if song.truthy then
    let queryV := if artist.truthy
                  then PyVal.str (song.render ++ " " ++ artist.render)
                  else song
    match queryV with
    | PyVal.str q =>
      ⟨w, [Event.speak ("Playing " ++ q ++ " on YouTube."),
           Event.openUrl ("https://www.youtube.com/results?search_query=" ++ quotePlus q)],
       Except.ok Option.none⟩
    | _ => ⟨w, [], Except.error PyErr.typeError⟩  -- quote_plus on a non-string
  else
    ⟨w, [Event.speak "I need a song or video name to play."], Except.ok Option.none⟩

/-- `handle_web_search` (source lines 343-360).  A non-string `query` makes
`quote_plus` raise while the url table is built; a non-string `engine`
(including a present-but-null one) makes `engine.lower()` raise. -/
def handle_web_search : Handler := fun params _ w =>
  let query := pyGet params "query"
  let engine := pyGetD params "engine" (PyVal.str DEFAULT_WEB_ENGINE)
  if query.truthy then
    match query with
    | PyVal.str q =>
      match engine with
      | PyVal.str e =>
        let searchUrls := [
          ("google", "https://www.google.com/search?q=" ++ quotePlus q),
          ("duckduckgo", "https://duckduckgo.com/?q=" ++ quotePlus q),
          ("bing", "https://www.bing.com/search?q=" ++ quotePlus q)]
        let url := (searchUrls.lookup (pyLower e)).getD
          ("https://www.google.com/search?q=" ++ quotePlus q)
        ⟨w, [Event.speak ("Searching " ++ pyCapitalize e ++ " for: " ++ q),
             Event.openUrl url],
         Except.ok Option.none⟩
      | _ => ⟨w, [], Except.error PyErr.attributeError⟩  -- engine.lower()
    | _ => ⟨w, [], Except.error PyErr.typeError⟩  -- quote_plus on a non-string
  else
    ⟨w, [Event.speak "I need a query for a web search."], Except.ok Option.none⟩

/-- Success message spoken inside `_system_control_cross_platform`. -/
def sysSuccessMsg : String → String
  | "lock" => "System locked."
  | "shutdown" => "System shutting down."
  | "restart" => "System restarting."
  | _ => "System entering sleep mode."

/-- `_system_control_cross_platform` (source lines 91-139), with the
platform-specific subprocess calls abstracted by the `sysCtlOk` oracle;
a failing call is the except branch, an unsupported command returns
`False` silently. -/
def systemControlHelper (command : String) (w : World) : Bool × List Event :=
  let c := pyLower command
  if c = "lock" || c = "shutdown" || c = "restart" || c = "sleep" then
    if w.sysCtlOk c then (true, [Event.speak (sysSuccessMsg c)])
    else (false, [Event.speak ("Could not execute system command: " ++ c)])
  else (false, [])

/-- `handle_system_control` (source lines 362-369). -/
def handle_system_control : Handler := fun params _ w =>
  let command := pyGet params "command"
  if command.truthy then
    match command with
    | PyVal.str c =>
      let res := systemControlHelper c w
      if res.1 then ⟨w, res.2, Except.ok Option.none⟩
      else ⟨w, res.2 ++ [Event.speak ("Sorry, the system control command \x27" ++ c ++ "\x27 failed.")],
            Except.ok Option.none⟩
    | _ => ⟨w, [], Except.error PyErr.attributeError⟩  -- command.lower() in the helper
  else
    ⟨w, [Event.speak "I need a command like shutdown, restart, or lock."],
     Except.ok Option.none⟩

/-- `handle_volume_control` (source lines 371-391); the platform volume
helpers are abstracted by the `volCtlOk` oracle. -/
def handle_volume_control : Handler := fun params _ w =>
  let operation := pyGet params "operation"
  let value := pyGet params "value"
  if w.volCtlOk operation value then
    if operation = PyVal.str "set" then
      ⟨w, [Event.speak ("Volume set to " ++ value.render ++ " percent.")],
       Except.ok Option.none⟩
    else if operation = PyVal.str "increase" || operation = PyVal.str "decrease" then
      ⟨w, [Event.speak ("Volume " ++ operation.render ++ "d by " ++
            toString DEFAULT_VOLUME_STEP ++ " percent.")],
       Except.ok Option.none⟩
    else if operation = PyVal.str "mute" || operation = PyVal.str "unmute" then
      ⟨w, [Event.speak ("Volume " ++ operation.render ++ "d.")], Except.ok Option.none⟩
    else
      ⟨w, [Event.speak "Volume control executed."], Except.ok Option.none⟩
  else
    ⟨w, [Event.speak "I\x27m sorry, I couldn\x27t control the system volume. Check your pycaw installation on Windows, or permissions on other operating systems."],
     Except.ok Option.none⟩

/-- `handle_window_control` (source lines 394-424); `pyautogui` keystrokes
are abstracted by the `windowOk` oracle (failure is the except branch). -/
def handle_window_control : Handler := fun params _ w =>
  let command := pyGet params "command"
  if command = PyVal.str "minimize" then
    if w.windowOk then ⟨w, [Event.speak "Window minimized."], Except.ok Option.none⟩
    else ⟨w, [Event.speak "I had trouble controlling the window. Check your system\x27s keyboard shortcuts."],
          Except.ok Option.none⟩
  else if command = PyVal.str "maximize" then
    if w.windowOk then ⟨w, [Event.speak "Window maximized."], Except.ok Option.none⟩
    else ⟨w, [Event.speak "I had trouble controlling the window. Check your system\x27s keyboard shortcuts."],
          Except.ok Option.none⟩
  else
    ⟨w, [Event.speak ("Unknown window control command: " ++ command.render)],
     Except.ok Option.none⟩

/-- Whether the operation is one of the four file-specific operations of the
extension-standardization block (source line 438). -/
def opIsFileOp : PyVal → Bool
  | PyVal.str "create" => true
  | PyVal.str "append" => true
  | PyVal.str "read" => true
  | PyVal.str "delete" => true
  | _ => false

/-- The extension-standardization step applied to a string path (source
lines 440-441): append `.txt` when the path has no extension and does not
name an existing directory. -/
def fixName (n : String) (fs : FS) : String :=
  if (splitext n).2 = "" && !(fs.isdir n) then n ++ ".txt" else n

/-- The effective path `handle_file_io` works with for a string `file_name`
(source lines 436-442): the extension fix applies only to the four
file-specific operations and never to `"."`. -/
def effectiveFilePath (op : PyVal) (n : String) (fs : FS) : String :=
  if opIsFileOp op && n ≠ "." then fixName n fs else n

/-- `except FileNotFoundError` message of `handle_file_io`. -/
def fileNotFoundMsg (p : String) : String :=
  "Error: The file or directory \x27" ++ p ++ "\x27 was not found."

/-- `except IsADirectoryError` message of `handle_file_io`. -/
def isDirectoryMsg (p : String) : String :=
  "Error: \x27" ++ p ++ "\x27 is a directory. Please use the \x27list\x27 operation to view its contents."

/-- `except Exception` message of `handle_file_io`. -/
def genericFileErrMsg (p : String) : String :=
  "A general error occurred during the file operation on " ++ p ++ "."

/-- The `try` block of `handle_file_io` (source lines 449-503), acting on
the already standardized path.  Python exceptions raised inside it are
rendered as the corresponding `except` branch's spoken message. -/
def fileIoTry (operation fp content : PyVal) (w : World) : HOut :=
  if operation = PyVal.str "create" then
    match fp with
    | PyVal.str p =>
      if w.fs.isdir p then
        ⟨w, [Event.speak (isDirectoryMsg p)], Except.ok Option.none⟩
      else
        match content with
        | PyVal.str c =>
          ⟨{ w with fs := w.fs.setFile p c },
           [Event.speak ("Successfully created or overwritten file " ++ p ++ ".")],
           Except.ok Option.none⟩
        | _ =>
          -- open(p, 'w') already truncated the file, then f.write raised
          -- TypeError, landing in the generic except branch.
          ⟨{ w with fs := w.fs.setFile p "" },
           [Event.speak (genericFileErrMsg p)], Except.ok Option.none⟩
    | _ => ⟨w, [Event.speak (genericFileErrMsg fp.render)], Except.ok Option.none⟩
  else if operation = PyVal.str "append" then
    match fp with
    | PyVal.str p =>
      if w.fs.isdir p then
        ⟨w, [Event.speak (isDirectoryMsg p)], Except.ok Option.none⟩
      else
        -- open(p, 'a') creates the file if it does not exist.
        let cur := (w.fs.file? p).getD ""
        match content with
        | PyVal.str c =>
          let newContent := if cur ≠ "" && pyStrip c ≠ "" then cur ++ "\n" ++ c
                            else cur ++ c
          ⟨{ w with fs := w.fs.setFile p newContent },
           [Event.speak ("Successfully added " ++ c ++ " to " ++ p ++ ".")],
           Except.ok Option.none⟩
        | _ =>
          -- content.strip() / f.write raised, generic except branch;
          -- the file was still created (empty) by the open.
          ⟨{ w with fs := w.fs.setFile p cur },
           [Event.speak (genericFileErrMsg p)], Except.ok Option.none⟩
    | _ => ⟨w, [Event.speak (genericFileErrMsg fp.render)], Except.ok Option.none⟩
  else if operation = PyVal.str "read" then
    match fp with
    | PyVal.str p =>
      if w.fs.isdir p then
        ⟨w, [Event.speak (isDirectoryMsg p)], Except.ok Option.none⟩
      else
        match w.fs.file? p with
        | Option.none => ⟨w, [Event.speak (fileNotFoundMsg p)], Except.ok Option.none⟩
        | Option.some c =>
          if c ≠ "" then
            let display := String.mk (c.toList.take 200) ++ (if 200 < c.length then "..." else "")
            ⟨w, [Event.speak ("The content of " ++ p ++ " is: " ++ display)],
             Except.ok Option.none⟩
          else
            ⟨w, [Event.speak ("File " ++ p ++ " is empty.")], Except.ok Option.none⟩
    | _ => ⟨w, [Event.speak (genericFileErrMsg fp.render)], Except.ok Option.none⟩
  else if operation = PyVal.str "delete" then
    match fp with
    | PyVal.str p =>
      if w.fs.isdir p then
        ⟨w, [Event.speak (isDirectoryMsg p)], Except.ok Option.none⟩
      else
        match w.fs.file? p with
        | Option.none => ⟨w, [Event.speak (fileNotFoundMsg p)], Except.ok Option.none⟩
        | Option.some _ =>
          ⟨{ w with fs := w.fs.removeFile p },
           [Event.speak ("File " ++ p ++ " has been permanently deleted.")],
           Except.ok Option.none⟩
    | _ => ⟨w, [Event.speak (genericFileErrMsg fp.render)], Except.ok Option.none⟩
  else if operation = PyVal.str "list" then
    match fp with
    | PyVal.int _ =>
      -- os.listdir on an integer treats it as a file descriptor and fails,
      -- landing in the generic except branch.
      ⟨w, [Event.speak (genericFileErrMsg fp.render)], Except.ok Option.none⟩
    | _ =>
      -- os.listdir(None) lists the current directory.
      let pathStr := match fp with | PyVal.str s => s | _ => "."
      match w.fs.dirs.lookup pathStr with
      | Option.some items =>
        let shown := items.filter
          (fun it => !(pyStartsWith it ".") && it ≠ ".." && it ≠ ".")
        if shown.isEmpty then
          ⟨w, [Event.speak ("The directory " ++ fp.render ++ " is empty or doesn\x27t exist.")],
           Except.ok Option.none⟩
        else
          ⟨w, [Event.speak ("The contents of " ++ fp.render ++ " are: " ++
                String.intercalate ", " shown)],
           Except.ok Option.none⟩
      | Option.none =>
        if (w.fs.file? pathStr).isSome then
          -- NotADirectoryError, generic except branch.
          ⟨w, [Event.speak (genericFileErrMsg fp.render)], Except.ok Option.none⟩
        else
          ⟨w, [Event.speak (fileNotFoundMsg fp.render)], Except.ok Option.none⟩
  else
    ⟨w, [Event.speak ("The file operation \x27" ++ operation.render ++ "\x27 is not supported.")],
     Except.ok Option.none⟩

/-- `handle_file_io` (source lines 427-503). -/
def handle_file_io : Handler := fun params _ w =>
  let operation := pyGet params "operation"
  let fp0 := pyGetD params "file_name" (PyVal.str ".")
  let content := pyOr (pyGet params "content") (PyVal.str "")
  -- Extension standardization (source lines 436-442), outside the try block:
  -- os.path.splitext raises on a non-string name, which then escapes.
  let fixed : Except PyErr PyVal :=
    if opIsFileOp operation && fp0 ≠ PyVal.str "." then
      match fp0 with
      | PyVal.str s => Except.ok (PyVal.str (fixName s w.fs))
      | _ => Except.error PyErr.typeError
    else Except.ok fp0
  match fixed with
  | Except.error e => ⟨w, [], Except.error e⟩
  | Except.ok fp =>
    if opIsFileOp operation && fp = PyVal.str "." then
      ⟨w, [Event.speak ("Please specify a file name for the \x27" ++
            operation.render ++ "\x27 operation.")],
       Except.ok Option.none⟩
    else
      fileIoTry operation fp content w

/-- The relisten condition of `handle_unknown_action` (source lines
517-529): the three context cues checked on the lower-cased, stripped
original command. -/
def relistenCue (original_command : String) : Bool :=
  let clean := pyStrip (pyLower original_command)
  (pyIn "explain about" clean || pyIn "tell me about" clean)
  || (pyIn "play" clean &&
      (pyIn "song" clean || pyIn "video" clean || pyIn "on youtube" clean))
  || (pyIn "open" clean || pyIn "go to" clean)

/-- `handle_unknown_action` (source lines 506-533). -/
def handle_unknown_action : Handler := fun params original_command w =>
  let reason := pyGetD params "reason" (PyVal.str "Command not understood.")
  let clean := pyStrip (pyLower original_command)
  if pyIn "explain about" clean || pyIn "tell me about" clean then
    ⟨w, [Event.speak "What do you want me to explain about?"],
     Except.ok (Option.some true)⟩
  else if pyIn "play" clean &&
      (pyIn "song" clean || pyIn "video" clean || pyIn "on youtube" clean) then
    ⟨w, [Event.speak "What song or video should I play?"],
     Except.ok (Option.some true)⟩
  else if pyIn "open" clean || pyIn "go to" clean then
    ⟨w, [Event.speak "What application or website do you want me to open?"],
     Except.ok (Option.some true)⟩
  else
    ⟨w, [Event.speak ("I\x27m sorry, I didn\x27t understand the command. The NLU reason was: " ++
          reason.render)],
     Except.ok (Option.some false)⟩

/-! ## Dispatch (`ACTION_MAP`, `execute_action`) -/

/-- `ACTION_MAP` (source lines 536-549).  The lambdas of the source drop the
`original_command` argument for all handlers except `handle_unknown_action`;
in particular `handle_gemini_reply` receives no original command. -/
def ACTION_MAP : List (String × Handler) := [
  ("gemini_reply", fun p _ w => handle_gemini_reply p Option.none w),
  ("open_website", fun p c w => handle_open_website p c w),
  ("open_application", fun p c w => handle_open_application p c w),
  ("close_application", fun p c w => handle_close_application p c w),
  ("youtube_search", fun p c w => handle_youtube_search p c w),
  ("youtube_play", fun p c w => handle_youtube_play p c w),
  ("web_search", fun p c w => handle_web_search p c w),
  ("system_control", fun p c w => handle_system_control p c w),
  ("volume_control", fun p c w => handle_volume_control p c w),
  ("window_control", fun p c w => handle_window_control p c w),
  ("file_io", fun p c w => handle_file_io p c w),
  ("unknown", handle_unknown_action)]

/-- The NLU result consumed by `execute_action`: `nlu_result.get('action')`
and `nlu_result.get('parameters', {})`.  The confidence field is only
logged and is omitted; `parameters` is modelled as a dict, per the
classifier contract of `gemini_nlu.py`. -/
structure NluResult where
  action : PyVal
  parameters : Params

/-- `ACTION_MAP.get(action_type, handle_unknown_action)`: a dict lookup
that can only succeed on a string key. -/
def lookupAction (a : PyVal) : Option Handler :=
  match a with
  | PyVal.str s => ACTION_MAP.lookup s
  | _ => Option.none

/-- `execute_action` (source lines 551-567). -/
def execute_action (nlu : NluResult) (command : String) (w : World) : HOut :=
  ((lookupAction nlu.action).getD handle_unknown_action) nlu.parameters command w

/-! ## The inner conversation loop (`main.py` lines 94-114) -/

/-- Python truthiness of a handler return value (`if should_relisten:`). -/
def pyRetTruthy : Option Bool → Bool
  | Option.some b => b
  | Option.none => false

/-- Accumulated run state of the inner loop: the world, one trace entry
`(classifier input, original_command argument of execute_action)` per
dispatch, and all events so far. -/
structure RunState where
  w : World
  trace : List (String × String)
  events : List Event

/-- Outcome of running the inner loop with bounded fuel: back to idle,
crashed on an escaped exception, or still running when fuel ran out. -/
inductive LoopOut where
  | idle (r : RunState)
  | crashed (e : PyErr) (r : RunState)
  | running (r : RunState)

/-- The run state carried by a loop outcome. -/
def LoopOut.state : LoopOut → RunState
  | LoopOut.idle r => r
  | LoopOut.crashed _ r => r
  | LoopOut.running r => r

/-- Whether the loop has transitioned back to idle. -/
def LoopOut.isIdle : LoopOut → Bool
  | LoopOut.idle _ => true
  | _ => false

/-- The inner `while True` loop of `main` (source lines 94-114): classify
`command_text`, dispatch it (passing the same `command_text` as
`original_command`), and on a truthy relisten flag capture a follow-up that
*overwrites* `command_text`; an empty or absent capture speaks a notice and
exits to idle.  `caps` is the stream of `listen_for_command` results,
indexed by `k`; `fuel` bounds the unrolling. -/
def innerLoop (classify : String → NluResult) (caps : Nat → Option String) :
    Nat → Nat → String → RunState → LoopOut
  | 0, _, _, r => LoopOut.running r
  | fuel + 1, k, command_text, r =>
    let nlu := classify command_text
    let out := execute_action nlu command_text r.w
    let r' : RunState :=
      ⟨out.world, r.trace ++ [(command_text, command_text)], r.events ++ out.events⟩
    match out.ret with
    | Except.error e => LoopOut.crashed e r'
    | Except.ok v =>
      if pyRetTruthy v then
        match caps k with
        | Option.some t =>
          if t = "" then
            LoopOut.idle ⟨r'.w, r'.trace,
              r'.events ++ [Event.speak "No response heard. Returning to wake word detection."]⟩
          else
            innerLoop classify caps fuel (k + 1) t r'
        | Option.none =>
          LoopOut.idle ⟨r'.w, r'.trace,
            r'.events ++ [Event.speak "No response heard. Returning to wake word detection."]⟩
      else
        LoopOut.idle r'

/-! ## Concrete fixtures and derived descriptions -/

/-- A concrete world: empty filesystem except a current directory with a few
entries, empty response log, all platform executors succeeding. -/
def w0 : World := {
  fs := ⟨[], [(".", ["notes.txt", ".hidden", "sub"])]⟩,
  responses := "",
  shortReplies := [],
  now := "2024-01-01 12:00:00",
  openAppOk := fun _ => true,
  closeAppOk := fun _ => true,
  sysCtlOk := fun _ => true,
  volCtlOk := fun _ _ => true,
  windowOk := true }

/-- A classifier that deterministically returns an `unknown` intent, the
normalization every failure path of `parse_command_with_gemini` produces. -/
def unknownAlways : String → NluResult := fun t =>
  ⟨PyVal.str "unknown",
   [("reason", PyVal.str "ambiguous"), ("original_command", PyVal.str t)]⟩

/-- The reply `handle_gemini_reply` effectively judges, given the pending
queue of short-listen results: the first result, or — when that is `None`
or empty — the second. -/
def finalReply (q : List (Option String)) : Option String :=
  let r1 := (q.head?).getD Option.none
  if (r1.getD "") = "" then ((q.drop 1).head?).getD Option.none else r1

/-- The question recorded in a saved response:
`original_command or params.get('question') or 'User query'`. -/
def questionOf (params : Params) (original_command : Option String) : String :=
  (pyOr (pyOr
      (match original_command with
       | Option.some s => PyVal.str s
       | Option.none => PyVal.none)
      (pyGet params "question"))
    (PyVal.str "User query")).render

/-- The formatted entry appended to `responses.txt` on a confirmed save. -/
def savedEntry (ts q a : String) : String :=
  String.intercalate "\n"
    [String.mk (List.replicate 60 '='),
     "Saved: " ++ ts,
     "Question: " ++ q,
     String.mk (List.replicate 60 '-'),
     pyStrip a, ""] ++ "\n"

/-- The message `handle_file_io` speaks when listing the current directory. -/
def listDirMsg (items : List String) : String :=
  let shown := items.filter (fun it => !(pyStartsWith it ".") && it ≠ ".." && it ≠ ".")
  if shown.isEmpty then "The directory . is empty or doesn\x27t exist."
  else "The contents of . are: " ++ String.intercalate ", " shown

/-! ## Helper lemmas -/

theorem lookup_updAssoc_self (l : List (String × String)) (k v : String) :
    (updAssoc l k v).lookup k = Option.some v := by
  induction l with
  | nil => simp [updAssoc]
  | cons hd t ih =>
    obtain ⟨k', v'⟩ := hd
    by_cases hk : k' = k
    · simp [updAssoc, hk]
    · have hbeq : (k == k') = false := beq_eq_false_iff_ne.mpr (Ne.symm hk)
      simp [updAssoc, hk, List.lookup, hbeq, ih]

theorem handle_unknown_ret (p : Params) (c : String) (w : World) :
    (handle_unknown_action p c w).ret = Except.ok (Option.some (relistenCue c)) ∧
    (handle_unknown_action p c w).world = w := by
  unfold handle_unknown_action relistenCue
  cases h1 : pyIn "explain about" (pyStrip (pyLower c)) ||
      pyIn "tell me about" (pyStrip (pyLower c)) <;>
  cases h2 : pyIn "play" (pyStrip (pyLower c)) &&
      (pyIn "song" (pyStrip (pyLower c)) || pyIn "video" (pyStrip (pyLower c)) ||
        pyIn "on youtube" (pyStrip (pyLower c))) <;>
  cases h3 : pyIn "open" (pyStrip (pyLower c)) ||
      pyIn "go to" (pyStrip (pyLower c)) <;>
  simp [h1, h2, h3]

theorem fileIoTry_dirs (op fp content : PyVal) (w : World) :
    (fileIoTry op fp content w).world.fs.dirs = w.fs.dirs := by
  unfold fileIoTry
  repeat' split
  all_goals try rfl
  all_goals simp only []
  all_goals repeat' split
  all_goals rfl

theorem handle_file_io_dirs (params : Params) (cmd : String) (w : World) :
    (handle_file_io params cmd w).world.fs.dirs = w.fs.dirs := by
  unfold handle_file_io
  simp only []
  repeat' split
  all_goals first
    | rfl
    | apply fileIoTry_dirs

/-! ## Claim theorems -/

/-- C1, counterexample: with a classifier that deterministically returns
`unknown` for every text and follow-up captures that keep containing the
`open` cue, the loop performs three consecutive dispatches (the original one
plus two follow-up iterations) and is still not back at idle — there is no
cap of one follow-up iteration. -/
theorem spec_c1_counterexample :
    (innerLoop unknownAlways (fun _ => Option.some "open the door") 3 0
        "open the door" ⟨w0, [], []⟩).isIdle = false ∧
    (innerLoop unknownAlways (fun _ => Option.some "open the door") 3 0
        "open the door" ⟨w0, [], []⟩).state.trace.length = 3 :=
  ⟨rfl, rfl⟩

/-- C1, amended: the loop imposes no cap on consecutive follow-up
iterations.  If every re-classification yields an `unknown` intent whose
handler finds a context cue (so it requests another follow-up) and every
capture returns non-empty cue-bearing text, the loop never transitions back
to idle, for any amount of fuel. -/
theorem spec_c1_followup_uncapped (fuel k : Nat) (command : String)
    (r : RunState) (caps : Nat → Option String)
    (hc : relistenCue command = true)
    (hcaps : ∀ i, ∃ t, caps i = Option.some t ∧ t ≠ "" ∧ relistenCue t = true) :
    (innerLoop unknownAlways caps fuel k command r).isIdle = false := by
  induction fuel generalizing k command r with
  | zero => rfl
  | succ n ih =>
    obtain ⟨t, ht, hne, hcue⟩ := hcaps k
    have hexec : execute_action (unknownAlways command) command r.w =
        handle_unknown_action
          [("reason", PyVal.str "ambiguous"), ("original_command", PyVal.str command)]
          command r.w := by
      unfold execute_action
      rw [show lookupAction (unknownAlways command).action =
            Option.some handle_unknown_action from rfl]
      rfl
    have hret := handle_unknown_ret
      [("reason", PyVal.str "ambiguous"), ("original_command", PyVal.str command)]
      command r.w
    simp only [innerLoop, hexec, hret.1, hc, pyRetTruthy, ht, hne]
    exact ih (k + 1) t _ hcue

/-- Witness for `spec_c1_followup_uncapped` at concrete inputs. -/
theorem spec_c1_followup_uncapped_witness :
    (innerLoop unknownAlways (fun _ => Option.some "open the door") 2 0
        "open the door" ⟨w0, [], []⟩).isIdle = false :=
  spec_c1_followup_uncapped 2 0 "open the door" ⟨w0, [], []⟩
    (fun _ => Option.some "open the door") (by decide)
    (fun _ => ⟨"open the door", rfl, by decide, by decide⟩)

/-- C2, counterexample: the first dispatch is for "open the door" and
requests a follow-up; the captured follow-up "explain about birds" is then
passed to `execute_action` as `original_command` itself — the text that
triggered the clarification is not preserved. -/
theorem spec_c2_counterexample :
    (innerLoop unknownAlways (fun _ => Option.some "explain about birds") 2 0
        "open the door" ⟨w0, [], []⟩).state.trace =
      [("open the door", "open the door"),
       ("explain about birds", "explain about birds")] ∧
    ("explain about birds" : String) ≠ "open the door" :=
  ⟨rfl, by decide⟩

/-- C2, amended: on every `FollowupCapture → Dispatching` transition the
newly captured text becomes both the classification input and the
`original_command` argument of the dispatch — the two components of every
trace entry always coincide. -/
theorem spec_c2_original_command_overwritten
    (classify : String → NluResult) (caps : Nat → Option String)
    (fuel k : Nat) (command : String) (r : RunState)
    (h : r.trace.all (fun pr => pr.1 == pr.2) = true) :
    (innerLoop classify caps fuel k command r).state.trace.all
      (fun pr => pr.1 == pr.2) = true := by
  induction fuel generalizing k command r with
  | zero => exact h
  | succ n ih =>
    have hstep : (r.trace ++ [(command, command)]).all
        (fun pr => pr.1 == pr.2) = true := by
      rw [List.all_append, h]
      simp
    simp only [innerLoop]
    split
    · exact hstep
    · split
      · split
        · split
          · exact hstep
          · exact ih (k + 1) _ _ hstep
        · exact hstep
      · exact hstep

/-- Witness for `spec_c2_original_command_overwritten` at concrete inputs. -/
theorem spec_c2_original_command_overwritten_witness :
    (innerLoop unknownAlways (fun _ => Option.some "explain about birds")
        2 0 "open the door" ⟨w0, [], []⟩).state.trace.all
      (fun pr => pr.1 == pr.2) = true :=
  spec_c2_original_command_overwritten unknownAlways
    (fun _ => Option.some "explain about birds") 2 0 "open the door"
    ⟨w0, [], []⟩ rfl

/-- C3: any NLU result whose action kind is not a key of `ACTION_MAP`
(including a missing, empty, or integer kind) dispatches to
`handle_unknown_action`, and the dispatch returns that handler's relisten
result without raising. -/
theorem spec_c3_unknown_dispatch (nlu : NluResult) (command : String)
    (w : World) (h : lookupAction nlu.action = Option.none) :
    execute_action nlu command w = handle_unknown_action nlu.parameters command w ∧
    (execute_action nlu command w).ret =
      Except.ok (Option.some (relistenCue command)) := by
  have heq : execute_action nlu command w =
      handle_unknown_action nlu.parameters command w := by
    unfold execute_action
    rw [h]
    rfl
  exact ⟨heq, by rw [heq]; exact (handle_unknown_ret nlu.parameters command w).1⟩

/-- Witness for `spec_c3_unknown_dispatch` at a concrete out-of-vocabulary
action kind. -/
theorem spec_c3_unknown_dispatch_witness :
    execute_action ⟨PyVal.str "frobnicate", [("reason", PyVal.str "x")]⟩
        "do the thing" w0 =
      handle_unknown_action [("reason", PyVal.str "x")] "do the thing" w0 ∧
    (execute_action ⟨PyVal.str "frobnicate", [("reason", PyVal.str "x")]⟩
        "do the thing" w0).ret =
      Except.ok (Option.some (relistenCue "do the thing")) :=
  spec_c3_unknown_dispatch ⟨PyVal.str "frobnicate", [("reason", PyVal.str "x")]⟩
    "do the thing" w0 rfl

/-- C4 (code bug): a `web_search` intent with a present-but-null `engine`
parameter makes `engine.lower()` raise an `AttributeError` that escapes
`execute_action` into the conversation loop, instead of every handler
invocation completing by returning a value. -/
theorem spec_c4_web_search_null_engine_raises :
    (execute_action
        ⟨PyVal.str "web_search",
         [("query", PyVal.str "cats"), ("engine", PyVal.none)]⟩
        "search for cats" w0).ret = Except.error PyErr.attributeError :=
  rfl

/-- C7, counterexample: a `list` operation on the bare name "notes" (no
extension, not an existing directory) keeps the effective path "notes" —
the default extension is not appended, as both the spoken error and the
path computation show. -/
theorem spec_c7_counterexample :
    effectiveFilePath (PyVal.str "list") "notes" w0.fs = "notes" ∧
    (handle_file_io [("operation", PyVal.str "list"),
        ("file_name", PyVal.str "notes")] "" w0).events =
      [Event.speak "Error: The file or directory \x27notes\x27 was not found."] ∧
    ("notes" : String) ≠ "notes.txt" :=
  ⟨rfl, rfl, by decide⟩

/-- C8 (code bug): for the schemeless url "wikipedia.org",
`'https://' + url.lstrip('www.')` strips every leading `w`, so the assistant
opens "https://ikipedia.org" rather than preserving the given address. -/
theorem spec_c8_lstrip_mangles_url :
    (handle_open_website [("url", PyVal.str "wikipedia.org")] "" w0).events =
      [Event.speak "Opening https://ikipedia.org",
       Event.openUrl "https://ikipedia.org"] ∧
    ("https://ikipedia.org" : String) ≠ "https://" ++ "wikipedia.org" :=
  ⟨rfl, by decide⟩

/-- C9, counterexample: a single knowledge-reply dispatch whose first
confirmation listen hears nothing performs a second listen attempt — two
listen attempts within one dispatch, with no follow-up capture of the
conversation loop involved. -/
theorem spec_c9_counterexample :
    ((handle_gemini_reply [("answer", PyVal.str "The answer is 42.")]
        Option.none
        { w0 with shortReplies := [Option.none, Option.some "yes"] }).events.countP
      (fun e => e == Event.listen)) = 2 :=
  rfl

/-- C5: with a non-empty string answer, the response log gains exactly the
formatted entry when the effectively captured confirmation reply contains
an affirmative word, and is unchanged for any other (or absent) reply. -/
theorem spec_c5_save_iff_affirmative (params : Params) (oc : Option String)
    (w : World) (a : String)
    (ha : pyGet params "answer" = PyVal.str a) (hne : a ≠ "") :
    (handle_gemini_reply params oc w).world.responses =
      (if isAffirmative (finalReply w.shortReplies)
       then w.responses ++ savedEntry w.now (questionOf params oc) a
       else w.responses) := by
  unfold handle_gemini_reply
  rw [ha]
  have htr : (PyVal.str a).truthy = true := by simp [PyVal.truthy, hne]
  rcases hq : w.shortReplies with _ | ⟨r, rest⟩
  · simp [htr, listenShort, hq, finalReply, savedEntry, questionOf, isAffirmative]
  · by_cases hr : (r.getD "") = ""
    · rcases hrest : rest with _ | ⟨r2, rest2⟩ <;>
        simp [htr, listenShort, hq, hr, hrest, finalReply, savedEntry, questionOf] <;>
        split <;> simp_all
    · simp [htr, listenShort, hq, hr, finalReply, savedEntry, questionOf]
      split <;> simp_all

/-- Witness for `spec_c5_save_iff_affirmative` at concrete inputs. -/
theorem spec_c5_save_iff_affirmative_witness :
    (handle_gemini_reply [("answer", PyVal.str "Paris")] Option.none
        { w0 with shortReplies := [Option.some "yes please"] }).world.responses =
      (if isAffirmative (finalReply [Option.some "yes please"])
       then "" ++ savedEntry "2024-01-01 12:00:00"
              (questionOf [("answer", PyVal.str "Paris")] Option.none) "Paris"
       else "") :=
  spec_c5_save_iff_affirmative [("answer", PyVal.str "Paris")] Option.none
    { w0 with shortReplies := [Option.some "yes please"] } "Paris" rfl (by decide)

/-- C6: for an `append` dispatch on a string name whose effective path is
not a directory, a missing or empty target ends up holding exactly the
given content, and a non-empty target with non-blank content gains exactly
one separating newline. -/
theorem spec_c6_append_separator (params : Params) (cmd : String) (w : World)
    (n c old : String)
    (hop : pyGet params "operation" = PyVal.str "append")
    (hn : pyGetD params "file_name" (PyVal.str ".") = PyVal.str n)
    (hne : n ≠ ".")
    (hc : pyOr (pyGet params "content") (PyVal.str "") = PyVal.str c)
    (hdir : w.fs.isdir (effectiveFilePath (PyVal.str "append") n w.fs) = false) :
    ((w.fs.file? (effectiveFilePath (PyVal.str "append") n w.fs) = Option.none ∨
      w.fs.file? (effectiveFilePath (PyVal.str "append") n w.fs) = Option.some "") →
      (handle_file_io params cmd w).world.fs.file?
          (effectiveFilePath (PyVal.str "append") n w.fs) = Option.some c) ∧
    (w.fs.file? (effectiveFilePath (PyVal.str "append") n w.fs) = Option.some old →
      old ≠ "" → pyStrip c ≠ "" →
      (handle_file_io params cmd w).world.fs.file?
          (effectiveFilePath (PyVal.str "append") n w.fs) =
        Option.some (old ++ "\n" ++ c)) := by
  have hpath : effectiveFilePath (PyVal.str "append") n w.fs = fixName n w.fs := by
    simp [effectiveFilePath, opIsFileOp, hne]
  have hfx : fixName n w.fs ≠ "." := by
    unfold fixName
    split
    · intro h
      have hlen := congrArg String.length h
      rw [String.length_append] at hlen
      have h4 : (".txt" : String).length = 4 := rfl
      have h1 : ("." : String).length = 1 := rfl
      omega
    · exact hne
  have hstep : handle_file_io params cmd w =
      fileIoTry (PyVal.str "append") (PyVal.str (fixName n w.fs))
        (PyVal.str c) w := by
    unfold handle_file_io
    rw [hop, hn, hc]
    simp [opIsFileOp, hne, hfx]
  rw [hstep, hpath]
  unfold fileIoTry
  rw [hpath] at hdir
  simp only [reduceIte, hdir, Bool.false_eq_true, if_false]
  constructor
  · intro hcur
    have hcur' : List.lookup (fixName n w.fs) w.fs.files = Option.none ∨
        List.lookup (fixName n w.fs) w.fs.files = Option.some "" := hcur
    rcases hcur' with hcur' | hcur' <;>
      simp [FS.file?, FS.setFile, hcur', lookup_updAssoc_self, String.empty_append]
  · intro hcur hold hcs
    have hcur' : List.lookup (fixName n w.fs) w.fs.files = Option.some old := hcur
    simp [FS.file?, FS.setFile, hcur', hold, hcs, lookup_updAssoc_self]

/-- Witness for `spec_c6_append_separator` at concrete inputs. -/
theorem spec_c6_append_separator_witness :
    ((w0.fs.file? (effectiveFilePath (PyVal.str "append") "list" w0.fs) = Option.none ∨
      w0.fs.file? (effectiveFilePath (PyVal.str "append") "list" w0.fs) = Option.some "") →
      (handle_file_io [("operation", PyVal.str "append"), ("file_name", PyVal.str "list"),
          ("content", PyVal.str "milk")] "" w0).world.fs.file?
          (effectiveFilePath (PyVal.str "append") "list" w0.fs) = Option.some "milk") ∧
    (w0.fs.file? (effectiveFilePath (PyVal.str "append") "list" w0.fs) = Option.some "eggs" →
      "eggs" ≠ "" → pyStrip "milk" ≠ "" →
      (handle_file_io [("operation", PyVal.str "append"), ("file_name", PyVal.str "list"),
          ("content", PyVal.str "milk")] "" w0).world.fs.file?
          (effectiveFilePath (PyVal.str "append") "list" w0.fs) =
        Option.some ("eggs" ++ "\n" ++ "milk")) :=
  spec_c6_append_separator
    [("operation", PyVal.str "append"), ("file_name", PyVal.str "list"),
     ("content", PyVal.str "milk")] "" w0 "list" "milk" "eggs"
    rfl rfl (by decide) rfl rfl

/-- C7, amended: for the four file-specific operations (create, append,
read, delete) and a name other than ".", the effective path gains ".txt"
exactly once when the name has no extension and is not an existing
directory, is left unchanged when the name already has an extension, and is
stable across a dispatch (no dispatch ever changes the directory set). -/
theorem spec_c7_extension_for_file_ops (op : PyVal) (n : String)
    (params : Params) (cmd : String) (w : World)
    (hop : opIsFileOp op = true) (hn : n ≠ ".") :
    ((splitext n).2 = "" → w.fs.isdir n = false →
      effectiveFilePath op n w.fs = n ++ ".txt") ∧
    ((splitext n).2 ≠ "" → effectiveFilePath op n w.fs = n) ∧
    effectiveFilePath op n (handle_file_io params cmd w).world.fs =
      effectiveFilePath op n w.fs := by
  refine ⟨?_, ?_, ?_⟩
  · intro hext hdir
    simp [effectiveFilePath, fixName, hop, hn, hext, hdir]
  · intro hext
    simp [effectiveFilePath, fixName, hop, hn, hext]
  · have hd := handle_file_io_dirs params cmd w
    simp only [effectiveFilePath, fixName, FS.isdir, hd]

/-- Witness for `spec_c7_extension_for_file_ops` at concrete inputs. -/
theorem spec_c7_extension_for_file_ops_witness :
    ((splitext "notes").2 = "" → w0.fs.isdir "notes" = false →
      effectiveFilePath (PyVal.str "create") "notes" w0.fs = "notes" ++ ".txt") ∧
    ((splitext "notes").2 ≠ "" →
      effectiveFilePath (PyVal.str "create") "notes" w0.fs = "notes") ∧
    effectiveFilePath (PyVal.str "create") "notes"
        (handle_file_io [("operation", PyVal.str "list")] "" w0).world.fs =
      effectiveFilePath (PyVal.str "create") "notes" w0.fs :=
  spec_c7_extension_for_file_ops (PyVal.str "create") "notes"
    [("operation", PyVal.str "list")] "" w0 (by decide) (by decide)

/-- C9, amended: a single knowledge-reply dispatch performs at most two
listen attempts for the save confirmation, and performs the second one only
when the first captured nothing usable. -/
theorem spec_c9_confirmation_two_listens (params : Params) (oc : Option String)
    (w : World) :
    (handle_gemini_reply params oc w).events.countP (fun e => e == Event.listen) ≤ 2 ∧
    ((handle_gemini_reply params oc w).events.countP (fun e => e == Event.listen) = 2 →
      (((w.shortReplies.head?).getD Option.none).getD "") = "") := by
  unfold handle_gemini_reply
  cases htr : (pyGet params "answer").truthy
  · simp [htr]
  · rcases hq : w.shortReplies with _ | ⟨r, rest⟩
    · simp only [htr, listenShort, hq]
      repeat' split
      all_goals simp_all
    · by_cases hr : (r.getD "") = ""
      · rcases hrest : rest with _ | ⟨r2, rest2⟩ <;>
          · simp only [htr, listenShort, hq, hr, hrest]
            repeat' split
            all_goals simp_all
      · simp only [htr, listenShort, hq, hr]
        repeat' split
        all_goals simp_all

/-- Witness for `spec_c9_confirmation_two_listens` at concrete inputs. -/
theorem spec_c9_confirmation_two_listens_witness :
    (handle_gemini_reply [("answer", PyVal.str "42")] Option.none w0).events.countP
        (fun e => e == Event.listen) ≤ 2 ∧
    ((handle_gemini_reply [("answer", PyVal.str "42")] Option.none w0).events.countP
        (fun e => e == Event.listen) = 2 →
      (((w0.shortReplies.head?).getD Option.none).getD "") = "") :=
  spec_c9_confirmation_two_listens [("answer", PyVal.str "42")] Option.none w0

/-- C10: a `file_io` dispatch with no `file_name` parameter lists the
current directory (path ".") with dotfiles filtered out for the `list`
operation, and for the four file-specific operations speaks a prompt and
performs no filesystem operation. -/
theorem spec_c10_missing_file_name (params : Params) (cmd : String) (w : World)
    (items : List String) (opn : String)
    (hf : params.lookup "file_name" = Option.none)
    (hd : w.fs.dirs.lookup "." = Option.some items) :
    (pyGet params "operation" = PyVal.str "list" →
      handle_file_io params cmd w =
        ⟨w, [Event.speak (listDirMsg items)], Except.ok Option.none⟩) ∧
    (opn ∈ (["create", "append", "read", "delete"] : List String) →
      pyGet params "operation" = PyVal.str opn →
      handle_file_io params cmd w =
        ⟨w, [Event.speak ("Please specify a file name for the \x27" ++ opn ++
              "\x27 operation.")],
         Except.ok Option.none⟩) := by
  have hfp : pyGetD params "file_name" (PyVal.str ".") = PyVal.str "." := by
    unfold pyGetD
    rw [hf]
  constructor
  · intro hop
    simp only [handle_file_io, hop, hfp]
    show fileIoTry (PyVal.str "list") (PyVal.str ".")
        (pyOr (pyGet params "content") (PyVal.str "")) w =
      ⟨w, [Event.speak (listDirMsg items)], Except.ok Option.none⟩
    simp only [listDirMsg]
    simp [fileIoTry, hd]
    split <;> (simp_all; rfl)
  · intro hmem hop
    fin_cases hmem <;> (simp only [handle_file_io, hop, hfp]; rfl)

/-- Witness for `spec_c10_missing_file_name` at concrete inputs. -/
theorem spec_c10_missing_file_name_witness :
    (pyGet [("operation", PyVal.str "list")] "operation" = PyVal.str "list" →
      handle_file_io [("operation", PyVal.str "list")] "" w0 =
        ⟨w0, [Event.speak (listDirMsg ["notes.txt", ".hidden", "sub"])],
         Except.ok Option.none⟩) ∧
    (("create" : String) ∈ (["create", "append", "read", "delete"] : List String) →
      pyGet [("operation", PyVal.str "list")] "operation" = PyVal.str "create" →
      handle_file_io [("operation", PyVal.str "list")] "" w0 =
        ⟨w0, [Event.speak ("Please specify a file name for the \x27create\x27 operation.")],
         Except.ok Option.none⟩) :=
  spec_c10_missing_file_name [("operation", PyVal.str "list")] "" w0
    ["notes.txt", ".hidden", "sub"] "create" rfl rfl
